import Mathlib

/-!
Verification of the message/transport layer of `src/lib/kernel.js`.

The development shallowly embeds the kernel's message codec
(`Message.prototype.parse` / `Message.prototype.respond`), the shell-socket
dispatcher (`_onMessage`), the heartbeat listener and the
`execute_request` / `kernel_info_request` handlers, and proves the spec's
claims about them.

Modelling conventions:
* Wire frames are `String`s (the source reads them with `Buffer.toString`).
* Structured data is the inductive `Json`; the runtime's `JSON.stringify` /
  `JSON.parse` are out-of-repository library code and are modelled from the
  spec's words ("canonical structured-data (key/value) text") as an
  injective, executable, length-prefixed text encoding with a total decoder.
* `crypto.createHmac(...).digest("hex")` is out-of-repository library code,
  modelled from the spec's words (a deterministic keyed digest rendered as a
  fixed-width 64-character hex string).
* JavaScript `undefined` is `Option.none`; code paths on which the source
  would throw a `TypeError` / `SyntaxError` return `Except.error`.
-/

/-- Structured (key/value) data carried in header/parentHeader/content
frames. Numbers are modelled as integers (every number the kernel emits is
one). -/
inductive Json where
  | null : Json
  | bool : Bool → Json
  | num : Int → Json
  | str : String → Json
  | arr : List Json → Json
  | obj : List (String × Json) → Json

/-- Decimal digit character for `d < 10`. -/
def digitChar (d : Nat) : Char := Char.ofNat (48 + d)

/-- Big-endian decimal digits of a natural number. -/
def natChars (n : Nat) : List Char :=
  if _h : n < 10 then [digitChar n]
  else natChars (n / 10) ++ [digitChar (n % 10)]
decreasing_by exact Nat.div_lt_self (by omega) (by omega)

/-- Decimal rendering of an integer (sign, then digits). -/
def intChars (i : Int) : List Char :=
  if i < 0 then '-' :: natChars i.natAbs else natChars i.toNat

/-- Encoding of one string: tag, length, separator, raw characters. -/
def encStrChars (s : String) : List Char :=
  's' :: natChars s.length ++ ';' :: s.data

mutual

/-- Character-level encoder for `Json` values. -/
def encJson : Json → List Char
  | .null => ['n']
  | .bool true => ['t']
  | .bool false => ['f']
  | .num i =>
    if i < 0 then 'j' :: natChars i.natAbs ++ [';']
    else 'i' :: natChars i.toNat ++ [';']
  | .str s => encStrChars s
  | .arr xs => 'a' :: natChars xs.length ++ ';' :: encArr xs
  | .obj kvs => 'o' :: natChars kvs.length ++ ';' :: encObj kvs

/-- Encoder for array elements, in order. -/
def encArr : List Json → List Char
  | [] => []
  | v :: vs => encJson v ++ encArr vs

/-- Encoder for object entries, in insertion order. -/
def encObj : List (String × Json) → List Char
  | [] => []
  | (k, v) :: kvs => encStrChars k ++ encJson v ++ encObj kvs

end

namespace JSON

/-- Modelled from the spec: "serializes header/parentHeader/metadata/content
to canonical structured-data text". The source delegates to the runtime's
`JSON.stringify`, which is outside this repository; the model is an
injective executable text encoding. -/
def stringify (v : Json) : String := ⟨encJson v⟩

end JSON

/-- Split the leading run of decimal digits off a character list. -/
def readDigits : List Char → List Char × List Char
  | [] => ([], [])
  | c :: cs =>
    if c.isDigit then
      let (ds, r) := readDigits cs
      (c :: ds, r)
    else ([], c :: cs)

/-- Value of a big-endian digit list. -/
def digitsVal (ds : List Char) : Nat :=
  ds.foldl (fun a c => 10 * a + (c.toNat - 48)) 0

/-- Read a natural number (at least one digit). -/
def parseNatRaw (cs : List Char) : Option (Nat × List Char) :=
  match readDigits cs with
  | ([], _) => none
  | (ds, r) => some (digitsVal ds, r)

/-- Consume a `';'` separator. -/
def expectSemi : List Char → Option (List Char)
  | ';' :: r => some r
  | _ => none

/-- Read a natural number followed by `';'`. -/
def parseNatSemi (cs : List Char) : Option (Nat × List Char) := do
  let (n, r) ← parseNatRaw cs
  let r2 ← expectSemi r
  pure (n, r2)


/-- Read a length-prefixed string body (after the `'s'` tag). -/
def parseLenStr (cs : List Char) : Option (String × List Char) := do
  let (n, r) ← parseNatSemi cs
  if n ≤ r.length then pure (⟨r.take n⟩, r.drop n) else none

mutual

/-- Fuel-indexed decoder for one `Json` value. -/
def parseVal : Nat → List Char → Option (Json × List Char)
  | 0, _ => none
  | _ + 1, 'n' :: rest => some (.null, rest)
  | _ + 1, 't' :: rest => some (.bool true, rest)
  | _ + 1, 'f' :: rest => some (.bool false, rest)
  | _ + 1, 'i' :: rest => (parseNatSemi rest).map (fun p => (.num p.1, p.2))
  | _ + 1, 'j' :: rest => (parseNatSemi rest).map (fun p => (.num (-(p.1 : Int)), p.2))
  | _ + 1, 's' :: rest => (parseLenStr rest).map (fun p => (.str p.1, p.2))
  | fuel + 1, 'a' :: rest => do
    let (n, r) ← parseNatSemi rest
    let (vs, r2) ← parseMany fuel n r
    pure (.arr vs, r2)
  | fuel + 1, 'o' :: rest => do
    let (n, r) ← parseNatSemi rest
    let (kvs, r2) ← parsePairs fuel n r
    pure (.obj kvs, r2)
  | _ + 1, _ => none

/-- Decoder for a counted sequence of values. -/
def parseMany : Nat → Nat → List Char → Option (List Json × List Char)
  | _, 0, cs => some ([], cs)
  | 0, _ + 1, _ => none
  | fuel + 1, n + 1, cs => do
    let (v, r) ← parseVal fuel cs
    let (vs, r2) ← parseMany fuel n r
    pure (v :: vs, r2)

/-- Decoder for a counted sequence of key/value entries. -/
def parsePairs : Nat → Nat → List Char → Option (List (String × Json) × List Char)
  | _, 0, cs => some ([], cs)
  | 0, _ + 1, _ => none
  | fuel + 1, n + 1, cs => do
    match cs with
    | 's' :: cs' => do
      let (k, r0) ← parseLenStr cs'
      let (v, r) ← parseVal fuel r0
      let (kvs, r2) ← parsePairs fuel n r
      pure ((k, v) :: kvs, r2)
    | _ => none

end

namespace JSON

/-- Modelled from the spec: "Decode header/parentHeader/content frames as
structured (key-value) data". Total decoder matching `JSON.stringify`;
`none` models the `SyntaxError` the runtime decoder throws on malformed
text. -/
def parse (s : String) : Option Json :=
  match parseVal (2 * s.length) s.data with
  | some (v, []) => some v
  | _ => none

end JSON

/-- JavaScript property read `j.k`: key lookup on an object, `undefined`
(`none`) on all other values. -/
def Json.get (j : Json) (k : String) : Option Json :=
  match j with
  | .obj kvs => kvs.lookup k
  | _ => none

/-- Whether a value is the `null` literal; property access on `null`
throws in JavaScript. -/
def Json.isNull : Json → Bool
  | .null => true
  | _ => false

mutual

/-- The JavaScript `ToString` coercion, for the values `Json` can denote.
Objects render as `"[object Object]"`; arrays render as their elements
joined with `","` (with `null` elements rendered empty, as
`Array.prototype.join` does). -/
def jsToString : Json → String
  | .null => "null"
  | .bool true => "true"
  | .bool false => "false"
  | .num i => ⟨intChars i⟩
  | .str s => s
  | .arr xs => String.intercalate "," (jsToStringList xs)
  | .obj _ => "[object Object]"

/-- Element renderings used by the array case of `jsToString`. -/
def jsToStringList : List Json → List String
  | [] => []
  | .null :: vs => "" :: jsToStringList vs
  | v :: vs => jsToString v :: jsToStringList vs

end

namespace crypto

/-- Lowercase hexadecimal digit for `d < 16`. -/
def hexDigit (d : Nat) : Char :=
  if d < 10 then Char.ofNat (48 + d) else Char.ofNat (87 + d)

/-- Fixed-width 64-character lowercase hex rendering of a natural number. -/
def hex64 (n : Nat) : String :=
  ⟨(List.range 64).map (fun i => hexDigit (n / 16 ^ (63 - i) % 16))⟩

/-- Modelled from the spec: `crypto.createHmac(scheme, key)` fed the four
signed frames in order and finished with `.digest("hex")` — "a lowercase hex
digest of a keyed MAC (default algorithm: a 256-bit secure hash) over the
concatenation, in order, of the four signed frames". The hash internals live
outside this repository; the model is a deterministic keyed digest rendered
as a fixed 64-character hex string. -/
def hmacHex (scheme key : String) (data : List String) : String :=
  let payload := scheme ++ "\x01" ++ key ++ "\x01"
    ++ String.join (data.map (fun s => s ++ "\x02"))
  hex64 (payload.data.foldl (fun a c => (a * 131 + c.toNat + 1) % 2 ^ 64) 5381)

end crypto

/-- One IPython message (the `Message` class, src/lib/kernel.js lines
224-241). `none` fields model the `undefined` the constructor assigns. -/
structure Message where
  idents : Option String := none
  delimiter : Option String := none
  signature : Option String := none
  header : Option Json := none
  parentHeader : Option Json := none
  metadata : Option String := none
  content : Option Json := none
  blob : Option String := none
  scheme : String := "sha256"
  key : String := ""
  signatureOK : Option Bool := none

/-- The field initialisation done by the `Message` constructor: all message
fields `undefined`, `this.scheme = scheme || "sha256"` (the empty string is
falsy), `this.key = key || ""`. -/
def Message.init (scheme key : String) : Message :=
  { scheme := if scheme == "" then "sha256" else scheme, key := key }

/-- Embeds `Message.prototype.parse` (src/lib/kernel.js lines 249-284).

The HMAC is recomputed over frames 3-6, `this.signature` and
`this.signatureOK` are assigned, and on a failed comparison the method
returns with every other field still `undefined`. Only on success are the
frames decoded: `idents`/`delimiter`/`metadata`/`blob` with `toString`,
`header`/`parentHeader`/`content` with `JSON.parse` (whose `SyntaxError` on
malformed text is the `Except.error` case, as is the `TypeError` from
touching an absent mandatory frame). -/
def Message.parse (self : Message) (args : List String) : Except String Message :=
  match args[3]?, args[4]?, args[5]?, args[6]? with
  | some a3, some a4, some a5, some a6 =>
    match args[2]? with
    | none => .error "TypeError: requestArguments[2] is undefined"
    | some a2 =>
      let digest := crypto.hmacHex self.scheme self.key [a3, a4, a5, a6]
      let checked := { self with signature := some a2,
                                 signatureOK := some (a2 == digest) }
      if a2 == digest then
        match JSON.parse a3 with
        | none => .error "SyntaxError: unexpected token in header"
        | some hj =>
          match JSON.parse a4 with
          | none => .error "SyntaxError: unexpected token in parentHeader"
          | some phj =>
            match JSON.parse a6 with
            | none => .error "SyntaxError: unexpected token in content"
            | some cj =>
              .ok { checked with
                      idents := args[0]?,
                      delimiter := args[1]?,
                      header := some hj,
                      parentHeader := some phj,
                      metadata := some a5,
                      content := some cj,
                      blob := args[7]? }
      else
        .ok checked
  | _, _, _, _ => .error "TypeError: a mandatory frame is missing"

/-- The `Message` constructor invoked with request arguments
(`new Message(arguments, scheme, key)`): initialise, then parse. -/
def Message.create (args : List String) (scheme key : String) :
    Except String Message :=
  (Message.init scheme key).parse args

/-- The three message-bus endpoints the kernel owns. -/
inductive SocketId where
  | shell : SocketId
  | iopub : SocketId
  | hb : SocketId
deriving DecidableEq

/-- One multipart write on an endpoint. -/
structure Emission where
  socket : SocketId
  frames : List String
deriving DecidableEq

/-- The coercion the transport write applies to a possibly-`undefined`
frame value (`String(undefined) = "undefined"`). Never exercised by the
claims: every message they send has `idents` and `delimiter` set. -/
def jsFrame : Option String → String
  | some s => s
  | none => "undefined"

/-- Prepend a key/value entry when the value is present; `JSON.stringify`
omits properties whose value is `undefined`. -/
def optField (k : String) : Option Json → List (String × Json)
  | some v => [(k, v)]
  | none => []

/-- The fresh header object `respond` builds (src/lib/kernel.js lines
296-301): a new message id, the originating header's `username` and
`session` (omitted when absent, as `JSON.stringify` omits `undefined`
properties), and the response's message type. -/
def respondHeader (hj : Json) (freshId messageType : String) : Json :=
  .obj ([("msg_id", .str freshId)]
    ++ optField "username" (hj.get "username")
    ++ optField "session" (hj.get "session")
    ++ [("msg_type", .str messageType)])

/-- The seven-frame multipart sequence `respond` writes (lines 323-331):
identities, delimiter, signature over the four serialized frames, then
those four frames. -/
def respondFrames (self : Message) (hj : Json)
    (freshId messageType : String) (content : Json) : List String :=
  [jsFrame self.idents, jsFrame self.delimiter,
   crypto.hmacHex self.scheme self.key
     [JSON.stringify (respondHeader hj freshId messageType),
      JSON.stringify hj, JSON.stringify (.obj []), JSON.stringify content],
   JSON.stringify (respondHeader hj freshId messageType),
   JSON.stringify hj, JSON.stringify (.obj []), JSON.stringify content]

/-- Embeds `Message.prototype.respond` (src/lib/kernel.js lines 293-332).

A fresh header is built from a new message id (`uuid.v4()`, outside the
repository, supplied here as the `freshId` argument); the parent header is
the originating header verbatim; metadata is an empty object. The four
serialized frames are signed and the seven-frame multipart sequence is
written on the given socket. Reading `username` off an absent or `null`
header throws. -/
def Message.respond (self : Message) (freshId : String) (socket : SocketId)
    (messageType : String) (content : Json) : Except String Emission :=
  match self.header with
  | none => .error "TypeError: cannot read username of undefined"
  | some hj =>
    if hj.isNull then .error "TypeError: cannot read username of null" else
    .ok { socket := socket,
          frames := respondFrames self hj freshId messageType content }

/-- The connection descriptor handed to the `Kernel` constructor. -/
structure KernelConfig where
  ip : String
  shell_port : Nat
  iopub_port : Nat
  hb_port : Nat
  signature_scheme : String
  key : String

/-- Error payload consulted by `onError` (`session.result.error`). -/
structure ErrorInfo where
  ename : Json
  evalue : Json
  traceback : Json

/-- Result state consulted by the terminal callbacks
(`session.result.mime` on success, `session.result.error` on error). -/
structure SessionResult where
  mime : Option Json := none
  error : Option ErrorInfo := none

/-- The per-session execution state owned by the external execution engine,
as the spec's SessionExecutionState describes it. -/
structure Session where
  executionCount : Int
  result : SessionResult

/-- The ExecutionTask built by `execute_request` (src/lib/kernel.js lines
205-211): the submitted code plus the four lifecycle callbacks, each closed
over the originating request. Callbacks also take the fresh message ids
their `respond` calls will consume. -/
structure ExecutionTask where
  code : Option Json
  beforeRun : String → Session → Except String (List Emission)
  afterRun : Session → List Emission
  onSuccess : String → String → Session → Except String (List Emission)
  onError : String → String → Session → Except String (List Emission)

/-- What one shell-socket arrival amounts to, at the granularity the claims
need: an exception escaping the listener, a silent drop, the
unknown-type warning, a call of an inherited `Object.prototype` method
(return value discarded, nothing sent, nothing logged), a re-entry into the
`Kernel` constructor (`msg_type = "constructor"`), an immediate multipart
write, or a task handed to the external execution engine. -/
inductive DispatchOutcome where
  | raised (err : String)
  | dropped
  | warned (msgType : String)
  | inheritedInvoked (msgType : String)
  | constructorInvoked
  | sent (ems : List Emission)
  | taskSubmitted (sessionKey : Option Json) (task : ExecutionTask)

/-- Frames written on any endpoint as the immediate result of a dispatch. -/
def DispatchOutcome.emissions : DispatchOutcome → List Emission
  | .sent ems => ems
  | _ => []

/-- Whether a registered handler (`kernel_info_request` /
`execute_request`) ran. -/
def DispatchOutcome.invokesHandler : DispatchOutcome → Bool
  | .sent _ => true
  | .taskSubmitted _ _ => true
  | _ => false

/-- The task handed to `sm.run`, when one was. -/
def DispatchOutcome.submittedTask : DispatchOutcome → Option ExecutionTask
  | .taskSubmitted _ t => some t
  | _ => none

namespace Kernel

/-- `protocolVersion` (src/lib/kernel.js line 48). -/
def protocolVersion : List Int := [4, 1]

/-- The host runtime's version triple (`process.versions.node`), opaque to
every claim. -/
def nodeVersion : List Int := [0, 10, 25]

/-- Embeds `Kernel.prototype.kernel_info_request` (lines 134-142): one
reply on the shell socket with the fixed informational payload. -/
def kernel_info_request (request : Message) (freshId : String) :
    Except String Emission :=
  request.respond freshId .shell "kernel_info_reply" (.obj
    [("language", .str "javascript"),
     ("language_version", .arr (nodeVersion.map .num)),
     ("protocol_version", .arr (protocolVersion.map .num))])

/-- Embeds the `beforeRun` closure (lines 150-158): broadcast the input
echo `pyin` carrying the execution count and the submitted code. -/
def beforeRun (request : Message) (freshId : String) (session : Session) :
    Except String (List Emission) :=
  match request.content with
  | none => .error "TypeError: cannot read code of undefined"
  | some cj =>
    if cj.isNull then .error "TypeError: cannot read code of null" else
    (request.respond freshId .iopub "pyin" (.obj
      ([("execution_count", .num session.executionCount)]
        ++ optField "code" (cj.get "code")))).map (fun e => [e])

/-- Embeds the `onSuccess` closure (lines 162-182): an ok `execute_reply`
on the shell socket, then a `pyout` broadcast carrying the MIME data. -/
def onSuccess (request : Message) (id1 id2 : String) (session : Session) :
    Except String (List Emission) := do
  let e1 ← request.respond id1 .shell "execute_reply" (.obj
    [("status", .str "ok"),
     ("execution_count", .num session.executionCount),
     ("payload", .arr []),
     ("user_variables", .obj []),
     ("user_expressions", .obj [])])
  let e2 ← request.respond id2 .iopub "pyout" (.obj
    ([("execution_count", .num session.executionCount)]
      ++ optField "data" session.result.mime
      ++ [("metadata", .obj [])]))
  pure [e1, e2]

/-- Embeds the `onError` closure (lines 184-203): an error `execute_reply`
on the shell socket, then a `pyerr` broadcast carrying the same three error
fields. -/
def onError (request : Message) (id1 id2 : String) (session : Session) :
    Except String (List Emission) :=
  match session.result.error with
  | none => .error "TypeError: cannot read ename of undefined"
  | some er => do
    let e1 ← request.respond id1 .shell "execute_reply" (.obj
      [("status", .str "error"),
       ("execution_count", .num session.executionCount),
       ("ename", er.ename),
       ("evalue", er.evalue),
       ("traceback", er.traceback)])
    let e2 ← request.respond id2 .iopub "pyerr" (.obj
      [("execution_count", .num session.executionCount),
       ("ename", er.ename),
       ("evalue", er.evalue),
       ("traceback", er.traceback)])
    pure [e1, e2]

/-- Embeds `Kernel.prototype.execute_request` (lines 149-213): build the
ExecutionTask (reading `request.content.code` eagerly) and hand it to
`this.sm.run(request.header.session, task)`. The engine itself is outside
the kernel; the outcome records the submission. -/
def execute_request (request : Message) : DispatchOutcome :=
  match request.content with
  | none => .raised "TypeError: cannot read code of undefined"
  | some cj =>
    if cj.isNull then .raised "TypeError: cannot read code of null" else
    let task : ExecutionTask :=
      { code := cj.get "code",
        beforeRun := beforeRun request,
        afterRun := fun _ => [],
        onSuccess := onSuccess request,
        onError := onError request }
    match request.header with
    | none => .raised "TypeError: cannot read session of undefined"
    | some hj =>
      if hj.isNull then .raised "TypeError: cannot read session of null"
      else .taskSubmitted (hj.get "session") task

end Kernel

namespace Kernel

/-- Own properties of `Kernel.prototype`: the two handler methods declared
on it, plus the `constructor` slot every function's prototype object
carries. -/
def prototypeOwnProps : List String :=
  ["kernel_info_request", "execute_request", "constructor"]

/-- Properties inherited from `Object.prototype`, which the JavaScript `in`
operator also reports because it walks the whole prototype chain. -/
def objectPrototypeProps : List String :=
  ["constructor", "hasOwnProperty", "isPrototypeOf", "propertyIsEnumerable",
   "toLocaleString", "toString", "valueOf", "__defineGetter__",
   "__defineSetter__", "__lookupGetter__", "__lookupSetter__", "__proto__"]

/-- The dispatcher's membership test `msg_type in prototype` where
`prototype = Object.getPrototypeOf(this)` (line 107-108): true for the two
handlers and for every inherited `Object.prototype` member. -/
def inPrototypeChain (t : String) : Bool :=
  prototypeOwnProps.contains t || objectPrototypeProps.contains t

/-- The property-key coercion the `in` operator applies to
`msg.header.msg_type` (strings pass through; `undefined` reads as the key
`"undefined"`). -/
def jsPropToKey : Option Json → String
  | some j => jsToString j
  | none => "undefined"

/-- `prototype[msg_type].call(this, msg)` for a property the chain does
have. The two registered handlers run; `"constructor"` re-enters the
`Kernel` constructor with the message as its configuration;
`"__proto__"` yields `Object.prototype`, which is not callable, and
`"__defineGetter__"`/`"__defineSetter__"` demand a callable second
argument, so those three throw; the remaining inherited
`Object.prototype` methods run harmlessly, their return value is
discarded, and nothing is emitted or logged. -/
def invokeProtoProperty (request : Message) (freshId : String) (t : String) :
    DispatchOutcome :=
  if t == "kernel_info_request" then
    match kernel_info_request request freshId with
    | .ok em => .sent [em]
    | .error e => .raised e
  else if t == "execute_request" then
    execute_request request
  else if t == "constructor" then
    .constructorInvoked
  else if t == "__proto__" then
    .raised "TypeError: prototype[msg_type].call is not a function"
  else if t == "__defineGetter__" || t == "__defineSetter__" then
    .raised "TypeError: Getter/Setter must be a function"
  else
    .inheritedInvoked t

/-- Embeds the `_onMessage` listener on the shell socket (src/lib/kernel.js
lines 97-114, registered bound to the kernel at line 119).

A `Message` is built from the frames with the configured scheme (the
`"hmac-"` prefix stripped) and key; a falsy `signatureOK` returns silently;
otherwise `msg.header.msg_type` selects a property of the kernel's
prototype, warning when the chain has no such property. -/
def _onMessage (config : KernelConfig) (freshId : String)
    (args : List String) : DispatchOutcome :=
  match Message.create args (config.signature_scheme.drop 5) config.key with
  | .error e => .raised e
  | .ok msg =>
    if msg.signatureOK != some true then .dropped
    else
      match msg.header with
      | none => .raised "TypeError: cannot read msg_type of undefined"
      | some hj =>
        if hj.isNull then
          .raised "TypeError: cannot read msg_type of null"
        else
        let msgType := jsPropToKey (hj.get "msg_type")
        if inPrototypeChain msgType then
          invokeProtoProperty msg freshId msgType
        else
          .warned msgType

/-- What `this` denotes inside the heartbeat listener. The listener at
src/lib/kernel.js lines 124-126 is a plain `function` registered without
`.bind(this)` (contrast line 119), and `EventEmitter` invokes listeners
with `this` set to the emitting socket, not to the kernel. -/
inductive HbThis where
  | kernelInstance : HbThis
  | socketInstance : HbThis

/-- Embeds the heartbeat listener body
`function(message) { this.hbSocket.send(message); }`: with `this` the
kernel it echoes the payload on the heartbeat socket; with `this` the
socket, `this.hbSocket` is `undefined` and reading `.send` off it throws. -/
def hbListener (thisVal : HbThis) (message : String) :
    Except String Emission :=
  match thisVal with
  | .kernelInstance => .ok { socket := .hb, frames := [message] }
  | .socketInstance => .error "TypeError: cannot read send of undefined"

/-- A heartbeat arrival as the kernel actually wires it: the unbound
listener is invoked by the socket's emitter, so `this` is the socket. -/
def hbOnMessage (message : String) : Except String Emission :=
  hbListener .socketInstance message

end Kernel

namespace sm

/-- Modelled from the spec: the external execution engine (`sm.js`, not
under src/) driving one successful execution — it "runs any 'before'
callback", then "invokes exactly one terminal callback", here `onSuccess`,
against the session state it owns. Emissions are collected in invocation
order. -/
def runStubSuccess (task : ExecutionTask) (session : Session)
    (id1 id2 id3 : String) : Except String (List Emission) := do
  let e1 ← task.beforeRun id1 session
  let e2 := task.afterRun session
  let e3 ← task.onSuccess id2 id3 session
  pure (e1 ++ e2 ++ e3)

/-- Modelled from the spec: the external execution engine invoking the
task's `onError` terminal callback with a session whose `result.error` is
populated. -/
def runStubError (task : ExecutionTask) (session : Session)
    (id1 id2 : String) : Except String (List Emission) :=
  task.onError id1 id2 session

end sm

/-- Helper projections for examining an emitted multipart message. -/
def Emission.contentJson (e : Emission) : Option Json :=
  e.frames[6]? >>= JSON.parse

/-- The decoded header frame of an emission. -/
def Emission.headerJson (e : Emission) : Option Json :=
  e.frames[3]? >>= JSON.parse

/-- The `msg_type` field of an emission's decoded header. -/
def Emission.msgType (e : Emission) : Option Json :=
  e.headerJson >>= (Json.get · "msg_type")

/-- A demonstration connection descriptor (scheme `hmac-sha256`, a
non-empty secret key). -/
def demoConfig : KernelConfig :=
  { ip := "127.0.0.1", shell_port := 8080, iopub_port := 8081,
    hb_port := 8082, signature_scheme := "hmac-sha256", key := "a-secret" }

/-- Header of the demonstration execute request. -/
def demoHeader : Json :=
  .obj [("msg_id", .str "m-exec-1"), ("username", .str "tester"),
        ("session", .str "session-1"), ("msg_type", .str "execute_request")]

/-- Content of the demonstration execute request. -/
def demoContent : Json := .obj [("code", .str "1+1")]

/-- Wire frames of the demonstration execute request: one routing identity,
the delimiter sentinel, a correct signature, then the four signed frames. -/
def demoRequestFrames : List String :=
  ["router-ident", "<IDS|MSG>",
   crypto.hmacHex "sha256" "a-secret"
     [JSON.stringify demoHeader, JSON.stringify (.obj []),
      JSON.stringify (.obj []), JSON.stringify demoContent],
   JSON.stringify demoHeader, JSON.stringify (.obj []),
   JSON.stringify (.obj []), JSON.stringify demoContent]

/-- The demonstration request as `parse` decodes it. -/
def demoMessage : Message :=
  { idents := some "router-ident", delimiter := some "<IDS|MSG>",
    signature := some (crypto.hmacHex "sha256" "a-secret"
      [JSON.stringify demoHeader, JSON.stringify (.obj []),
       JSON.stringify (.obj []), JSON.stringify demoContent]),
    signatureOK := some true,
    header := some demoHeader, parentHeader := some (.obj []),
    metadata := some (JSON.stringify (.obj [])), content := some demoContent,
    blob := none, scheme := "sha256", key := "a-secret" }

/-- The ExecutionTask the dispatcher submits for the demonstration
request. -/
def demoTask : Option ExecutionTask :=
  (Kernel._onMessage demoConfig "id-0" demoRequestFrames).submittedTask

/-- Session state after a successful evaluation of `1+1`. -/
def successSession : Session :=
  { executionCount := 1,
    result := { mime := some (.obj [("text/plain", .str "2")]) } }

/-- Session state after a failed evaluation. -/
def errorSession (en ev tb : Json) (n : Int) : Session :=
  { executionCount := n, result := { error := some ⟨en, ev, tb⟩ } }

/-- The demonstration success run: the stub engine drives the submitted
task through its lifecycle callbacks. -/
def demoSuccessRun : Option (Except String (List Emission)) :=
  demoTask.map
    (fun t => sm.runStubSuccess t successSession "id-1" "id-2" "id-3")

/-- The demonstration error run: the stub engine invokes the submitted
task's `onError`. -/
def demoErrorRun (en ev tb : Json) (n : Int) :
    Option (Except String (List Emission)) :=
  demoTask.map
    (fun t => sm.runStubError t (errorSession en ev tb n) "id-1" "id-2")

/-- An authenticated message whose `msg_type` is the inherited
`Object.prototype` member name `"toString"`. -/
def toStringFrames : List String :=
  ["router-ident", "<IDS|MSG>",
   crypto.hmacHex "sha256" "a-secret"
     [JSON.stringify (.obj [("msg_type", .str "toString")]),
      JSON.stringify (.obj []), JSON.stringify (.obj []),
      JSON.stringify (.obj [])],
   JSON.stringify (.obj [("msg_type", .str "toString")]),
   JSON.stringify (.obj []), JSON.stringify (.obj []),
   JSON.stringify (.obj [])]

/-- An authenticated message with the unregistered type
`nonexistent_request`. -/
def unknownTypeFrames : List String :=
  ["router-ident", "<IDS|MSG>",
   crypto.hmacHex "sha256" "a-secret"
     [JSON.stringify (.obj [("msg_type", .str "nonexistent_request")]),
      JSON.stringify (.obj []), JSON.stringify (.obj []),
      JSON.stringify (.obj [])],
   JSON.stringify (.obj [("msg_type", .str "nonexistent_request")]),
   JSON.stringify (.obj []), JSON.stringify (.obj []),
   JSON.stringify (.obj [])]

/-- A spec-conformant wire layout with TWO leading identity frames: the
delimiter sits at index 2 and the (correct, per the spec's layout)
signature at index 3. -/
def twoIdentFrames : List String :=
  ["ident-a", "ident-b", "<IDS|MSG>",
   crypto.hmacHex "sha256" "a-secret"
     [JSON.stringify demoHeader, JSON.stringify (.obj []),
      JSON.stringify (.obj []), JSON.stringify demoContent],
   JSON.stringify demoHeader, JSON.stringify (.obj []),
   JSON.stringify (.obj []), JSON.stringify demoContent]

/-- The ExecutionTask `execute_request` builds for the demonstration
request. -/
def demoExecTask : ExecutionTask :=
  { code := some (.str "1+1"),
    beforeRun := Kernel.beforeRun demoMessage,
    afterRun := fun _ => [],
    onSuccess := Kernel.onSuccess demoMessage,
    onError := Kernel.onError demoMessage }

theorem digitChar_isDigit {d : Nat} (h : d < 10) :
    (digitChar d).isDigit = true := by
  interval_cases d <;> decide

theorem digitChar_toNat {d : Nat} (h : d < 10) :
    (digitChar d).toNat = 48 + d := by
  interval_cases d <;> decide

theorem natChars_isDigit (n : Nat) : ∀ c ∈ natChars n, c.isDigit = true := by
  induction n using Nat.strong_induction_on with
  | _ n ih =>
    rw [natChars]
    split
    · intro c hc
      rw [List.mem_singleton] at hc
      subst hc
      exact digitChar_isDigit (by omega)
    · intro c hc
      rcases List.mem_append.mp hc with h | h
      · exact ih (n / 10) (Nat.div_lt_self (by omega) (by omega)) c h
      · rw [List.mem_singleton] at h
        subst h
        exact digitChar_isDigit (Nat.mod_lt _ (by omega))

theorem natChars_ne_nil (n : Nat) : natChars n ≠ [] := by
  rw [natChars]
  split
  · simp
  · simp

theorem digitsVal_append (ds : List Char) (c : Char) :
    digitsVal (ds ++ [c]) = 10 * digitsVal ds + (c.toNat - 48) := by
  simp [digitsVal, List.foldl_append]

theorem digitsVal_natChars (n : Nat) : digitsVal (natChars n) = n := by
  induction n using Nat.strong_induction_on with
  | _ n ih =>
    rw [natChars]
    split
    · next h =>
      simp only [digitsVal, List.foldl_cons, List.foldl_nil]
      rw [digitChar_toNat h]
      omega
    · next h =>
      rw [digitsVal_append, ih (n / 10) (Nat.div_lt_self (by omega) (by omega)),
        digitChar_toNat (Nat.mod_lt _ (by omega))]
      omega

theorem readDigits_append (ds : List Char) (y : Char) (rest : List Char)
    (h1 : ∀ c ∈ ds, c.isDigit = true) (h2 : y.isDigit = false) :
    readDigits (ds ++ y :: rest) = (ds, y :: rest) := by
  induction ds with
  | nil => simp [readDigits, h2]
  | cons c cs ih =>
    have hc : c.isDigit = true := h1 c (by simp)
    simp only [List.cons_append, readDigits, hc, if_true]
    rw [List.append_eq, ih (fun x hx => h1 x (by simp [hx]))]

theorem parseNatSemi_enc (n : Nat) (rest : List Char) :
    parseNatSemi (natChars n ++ ';' :: rest) = some (n, rest) := by
  obtain ⟨d, ds, hds⟩ := List.exists_cons_of_ne_nil (natChars_ne_nil n)
  have hrd : readDigits (natChars n ++ ';' :: rest) = (natChars n, ';' :: rest) :=
    readDigits_append _ _ _ (natChars_isDigit n) (by decide)
  rw [hds] at hrd
  have hval : digitsVal (d :: ds) = n := by
    rw [← hds]; exact digitsVal_natChars n
  simp only [List.cons_append] at hrd
  simp [parseNatSemi, parseNatRaw, hds, hrd, hval, expectSemi]

theorem parseLenStr_enc (s : String) (rest : List Char) :
    parseLenStr (natChars s.length ++ ';' :: (s.data ++ rest)) =
      some (s, rest) := by
  rw [parseLenStr]
  rw [parseNatSemi_enc s.length (s.data ++ rest)]
  have hlen : s.length = s.data.length := rfl
  have hle : s.length ≤ (s.data ++ rest).length := by
    rw [List.length_append]; omega
  simp only [Option.bind_eq_bind, Option.some_bind, hle, if_true]
  rw [hlen, List.take_left, List.drop_left]
  rfl

mutual

/-- Decoder fuel needed for one value. -/
def jsize : Json → Nat
  | .null => 1
  | .bool _ => 1
  | .num _ => 1
  | .str _ => 1
  | .arr xs => 1 + jsizeArr xs
  | .obj kvs => 1 + jsizeObj kvs

/-- Decoder fuel needed for a list of array elements. -/
def jsizeArr : List Json → Nat
  | [] => 0
  | v :: vs => 1 + jsize v + jsizeArr vs

/-- Decoder fuel needed for a list of object entries. -/
def jsizeObj : List (String × Json) → Nat
  | [] => 0
  | (_, v) :: kvs => 1 + jsize v + jsizeObj kvs

end

mutual

theorem jsize_le (v : Json) : jsize v + 1 ≤ 2 * (encJson v).length := by
  match v with
  | .null => simp [jsize, encJson]
  | .bool b => cases b <;> simp [jsize, encJson]
  | .num i =>
    have h1 : (natChars i.natAbs).length ≥ 1 :=
      List.length_pos.mpr (natChars_ne_nil _)
    have h2 : (natChars i.toNat).length ≥ 1 :=
      List.length_pos.mpr (natChars_ne_nil _)
    simp only [jsize, encJson]
    split <;> (simp; try omega)
  | .str s =>
    simp [jsize, encJson, encStrChars]
    try omega
  | .arr xs =>
    have h := jsizeArr_le xs
    simp [jsize, encJson]
    try omega
  | .obj kvs =>
    have h := jsizeObj_le kvs
    simp [jsize, encJson]
    try omega

theorem jsizeArr_le (vs : List Json) : jsizeArr vs ≤ 2 * (encArr vs).length := by
  match vs with
  | [] => simp [jsizeArr, encArr]
  | v :: vs =>
    have h1 := jsize_le v
    have h2 := jsizeArr_le vs
    simp [jsizeArr, encArr]
    try omega

theorem jsizeObj_le (kvs : List (String × Json)) :
    jsizeObj kvs ≤ 2 * (encObj kvs).length := by
  match kvs with
  | [] => simp [jsizeObj, encObj]
  | (k, v) :: kvs =>
    have h1 := jsize_le v
    have h2 := jsizeObj_le kvs
    simp [jsizeObj, encObj]
    try omega

end

mutual

theorem parseVal_enc (v : Json) : ∀ (fuel : Nat) (rest : List Char),
    jsize v ≤ fuel → parseVal fuel (encJson v ++ rest) = some (v, rest) := by
  match v with
  | .null =>
    intro fuel rest h
    match fuel with
    | 0 => simp [jsize] at h
    | f + 1 => rfl
  | .bool b =>
    intro fuel rest h
    match fuel with
    | 0 => simp [jsize] at h
    | f + 1 => cases b <;> rfl
  | .num i =>
    intro fuel rest h
    match fuel with
    | 0 => simp [jsize] at h
    | f + 1 =>
      by_cases hi : i < 0
      · have habs : -(i.natAbs : Int) = i := by omega
        simp only [encJson, if_pos hi, List.cons_append, List.append_assoc,
          List.singleton_append]
        simp only [parseVal, parseNatSemi_enc]
        simp only [Option.map_some', List.nil_append, habs]
      · have htn : (i.toNat : Int) = i := by omega
        simp only [encJson, if_neg hi, List.cons_append, List.append_assoc,
          List.singleton_append]
        simp only [parseVal, parseNatSemi_enc]
        simp only [Option.map_some', List.nil_append, htn]
  | .str s =>
    intro fuel rest h
    match fuel with
    | 0 => simp [jsize] at h
    | f + 1 =>
      simp only [encJson, encStrChars, List.cons_append, List.append_assoc]
      simp only [parseVal, parseLenStr_enc]
      simp
  | .arr xs =>
    intro fuel rest h
    match fuel with
    | 0 => simp [jsize] at h
    | f + 1 =>
      have hxs : jsizeArr xs ≤ f := by simp [jsize] at h; omega
      simp only [encJson, List.cons_append, List.append_assoc]
      simp only [parseVal, parseNatSemi_enc, Option.bind_eq_bind,
        Option.some_bind]
      rw [parseVal_encArr xs f rest hxs]
      rfl
  | .obj kvs =>
    intro fuel rest h
    match fuel with
    | 0 => simp [jsize] at h
    | f + 1 =>
      have hkvs : jsizeObj kvs ≤ f := by simp [jsize] at h; omega
      simp only [encJson, List.cons_append, List.append_assoc]
      simp only [parseVal, parseNatSemi_enc, Option.bind_eq_bind,
        Option.some_bind]
      rw [parseVal_encObj kvs f rest hkvs]
      rfl

theorem parseVal_encArr (vs : List Json) : ∀ (fuel : Nat) (rest : List Char),
    jsizeArr vs ≤ fuel →
    parseMany fuel vs.length (encArr vs ++ rest) = some (vs, rest) := by
  match vs with
  | [] =>
    intro fuel rest _
    simp [encArr, parseMany]
  | v :: vs =>
    intro fuel rest h
    match fuel with
    | 0 => simp [jsizeArr] at h
    | f + 1 =>
      have hv : jsize v ≤ f := by simp [jsizeArr] at h; omega
      have hvs : jsizeArr vs ≤ f := by simp [jsizeArr] at h; omega
      simp only [encArr, List.append_assoc, List.length_cons]
      simp only [parseMany, Option.bind_eq_bind]
      rw [parseVal_enc v f (encArr vs ++ rest) hv]
      simp only [Option.some_bind]
      rw [parseVal_encArr vs f rest hvs]
      rfl

theorem parseVal_encObj (kvs : List (String × Json)) :
    ∀ (fuel : Nat) (rest : List Char),
    jsizeObj kvs ≤ fuel →
    parsePairs fuel kvs.length (encObj kvs ++ rest) = some (kvs, rest) := by
  match kvs with
  | [] =>
    intro fuel rest _
    simp [encObj, parsePairs]
  | (k, v) :: kvs =>
    intro fuel rest h
    match fuel with
    | 0 => simp [jsizeObj] at h
    | f + 1 =>
      have hv : jsize v ≤ f := by simp [jsizeObj] at h; omega
      have hkvs : jsizeObj kvs ≤ f := by simp [jsizeObj] at h; omega
      simp only [encObj, encStrChars, List.cons_append, List.append_assoc,
        List.length_cons]
      simp only [parsePairs, Option.bind_eq_bind]
      rw [parseLenStr_enc k (encJson v ++ (encObj kvs ++ rest))]
      simp only [Option.some_bind]
      rw [parseVal_enc v f (encObj kvs ++ rest) hv]
      simp only [Option.some_bind]
      rw [parseVal_encObj kvs f rest hkvs]
      rfl

end

theorem JSON.parse_stringify (v : Json) :
    JSON.parse (JSON.stringify v) = some v := by
  have hfuel : jsize v ≤ 2 * (encJson v).length := by
    have := jsize_le v
    omega
  have h := parseVal_enc v (2 * (encJson v).length) [] hfuel
  rw [List.append_nil] at h
  unfold JSON.parse JSON.stringify
  rw [show (2 * (⟨encJson v⟩ : String).length) = 2 * (encJson v).length from rfl,
    show (⟨encJson v⟩ : String).data = encJson v from rfl, h]

theorem Message.respond_ok (self : Message) (freshId : String)
    (socket : SocketId) (messageType : String) (content : Json) (hj : Json)
    (hh : self.header = some hj) (hnull : hj.isNull = false) :
    self.respond freshId socket messageType content =
      .ok { socket := socket,
            frames := respondFrames self hj freshId messageType content } := by
  unfold Message.respond
  rw [hh]
  simp [hnull]

theorem respondFrames_contentJson (self : Message) (hj : Json)
    (freshId messageType : String) (content : Json) (socket : SocketId) :
    Emission.contentJson
      ⟨socket, respondFrames self hj freshId messageType content⟩ =
      some content := by
  simp [Emission.contentJson, respondFrames, JSON.parse_stringify]

theorem respondFrames_msgType (self : Message) (hj : Json)
    (freshId messageType : String) (content : Json) (socket : SocketId) :
    Emission.msgType
      ⟨socket, respondFrames self hj freshId messageType content⟩ =
      some (.str messageType) := by
  simp only [Emission.msgType, Emission.headerJson, respondFrames]
  rw [show ([jsFrame self.idents, jsFrame self.delimiter,
      crypto.hmacHex self.scheme self.key
        [JSON.stringify (respondHeader hj freshId messageType),
         JSON.stringify hj, JSON.stringify (.obj []),
         JSON.stringify content],
      JSON.stringify (respondHeader hj freshId messageType),
      JSON.stringify hj, JSON.stringify (.obj []),
      JSON.stringify content][3]?) =
    some (JSON.stringify (respondHeader hj freshId messageType)) from rfl]
  rw [show ∀ (a : String) (f : String → Option Json), some a >>= f = f a from
    fun a f => rfl]
  rw [JSON.parse_stringify]
  cases hu : hj.get "username" <;> cases hs : hj.get "session" <;>
    simp only [respondHeader, optField, hu, hs] <;> rfl

theorem Message.parse_sigFail (self : Message)
    (a0 a1 a2 a3 a4 a5 a6 : String) (rest : List String)
    (hsig : (a2 == crypto.hmacHex self.scheme self.key [a3, a4, a5, a6]) =
      false) :
    self.parse (a0 :: a1 :: a2 :: a3 :: a4 :: a5 :: a6 :: rest) =
      .ok { self with signature := some a2, signatureOK := some false } := by
  unfold Message.parse
  simp [hsig]

theorem Message.parse_sigOK (self : Message)
    (a0 a1 a2 a3 a4 a5 a6 : String) (rest : List String)
    (hj phj cj : Json)
    (hsig : (a2 == crypto.hmacHex self.scheme self.key [a3, a4, a5, a6]) =
      true)
    (hh : JSON.parse a3 = some hj) (hph : JSON.parse a4 = some phj)
    (hc : JSON.parse a6 = some cj) :
    self.parse (a0 :: a1 :: a2 :: a3 :: a4 :: a5 :: a6 :: rest) =
      .ok { self with
              signature := some a2, signatureOK := some true,
              idents := some a0, delimiter := some a1,
              header := some hj, parentHeader := some phj,
              metadata := some a5, content := some cj,
              blob := rest[0]? } := by
  unfold Message.parse
  simp [hsig, hh, hph, hc]

theorem Message.parse_headerFail (self : Message)
    (a0 a1 a2 a3 a4 a5 a6 : String) (rest : List String)
    (hsig : (a2 == crypto.hmacHex self.scheme self.key [a3, a4, a5, a6]) =
      true)
    (hh : JSON.parse a3 = none) :
    self.parse (a0 :: a1 :: a2 :: a3 :: a4 :: a5 :: a6 :: rest) =
      .error "SyntaxError: unexpected token in header" := by
  unfold Message.parse
  simp [hsig, hh]

theorem Message.parse_parentFail (self : Message)
    (a0 a1 a2 a3 a4 a5 a6 : String) (rest : List String) (hj : Json)
    (hsig : (a2 == crypto.hmacHex self.scheme self.key [a3, a4, a5, a6]) =
      true)
    (hh : JSON.parse a3 = some hj) (hph : JSON.parse a4 = none) :
    self.parse (a0 :: a1 :: a2 :: a3 :: a4 :: a5 :: a6 :: rest) =
      .error "SyntaxError: unexpected token in parentHeader" := by
  unfold Message.parse
  simp [hsig, hh, hph]

theorem Message.parse_contentFail (self : Message)
    (a0 a1 a2 a3 a4 a5 a6 : String) (rest : List String) (hj phj : Json)
    (hsig : (a2 == crypto.hmacHex self.scheme self.key [a3, a4, a5, a6]) =
      true)
    (hh : JSON.parse a3 = some hj) (hph : JSON.parse a4 = some phj)
    (hc : JSON.parse a6 = none) :
    self.parse (a0 :: a1 :: a2 :: a3 :: a4 :: a5 :: a6 :: rest) =
      .error "SyntaxError: unexpected token in content" := by
  unfold Message.parse
  simp [hsig, hh, hph, hc]

/-- C1: an incoming shell-socket multipart message whose recomputed
authentication tag does not match the received signature frame is silently
dropped by `_onMessage`: no handler is invoked, zero frames are emitted on
any endpoint, and — there being no outgoing message at all — the message is
never used as the `parentHeader` of a response. -/
theorem unauthenticated_never_dispatched (config : KernelConfig)
    (freshId a0 a1 a2 a3 a4 a5 a6 : String) (rest : List String)
    (hsig : (a2 == crypto.hmacHex
        (Message.init (config.signature_scheme.drop 5) config.key).scheme
        config.key [a3, a4, a5, a6]) = false) :
    Kernel._onMessage config freshId
        (a0 :: a1 :: a2 :: a3 :: a4 :: a5 :: a6 :: rest) = .dropped ∧
      (Kernel._onMessage config freshId
        (a0 :: a1 :: a2 :: a3 :: a4 :: a5 :: a6 :: rest)).emissions = [] ∧
      (Kernel._onMessage config freshId
        (a0 :: a1 :: a2 :: a3 :: a4 :: a5 :: a6 :: rest)).invokesHandler =
        false := by
  have h : Kernel._onMessage config freshId
      (a0 :: a1 :: a2 :: a3 :: a4 :: a5 :: a6 :: rest) = .dropped := by
    unfold Kernel._onMessage Message.create
    rw [Message.parse_sigFail
      (Message.init (config.signature_scheme.drop 5) config.key)
      a0 a1 a2 a3 a4 a5 a6 rest hsig]
    rfl
  exact ⟨h, by rw [h]; rfl, by rw [h]; rfl⟩

/-- Witness for C1: a concrete forged message is dropped. -/
theorem unauthenticated_never_dispatched_witness :
    (("forged" == crypto.hmacHex
        (Message.init (demoConfig.signature_scheme.drop 5)
          demoConfig.key).scheme
        demoConfig.key ["h", "p", "m", "c"]) = false) ∧
      (Kernel._onMessage demoConfig "id-0"
          ["i", "<IDS|MSG>", "forged", "h", "p", "m", "c"] = .dropped ∧
        (Kernel._onMessage demoConfig "id-0"
          ["i", "<IDS|MSG>", "forged", "h", "p", "m", "c"]).emissions = [] ∧
        (Kernel._onMessage demoConfig "id-0"
          ["i", "<IDS|MSG>", "forged", "h", "p", "m", "c"]).invokesHandler =
          false) :=
  ⟨by decide, unauthenticated_never_dispatched demoConfig "id-0"
    "i" "<IDS|MSG>" "forged" "h" "p" "m" "c" [] (by decide)⟩

/-- C2 counterexample: with the empty secret key, a syntactically
well-formed seven-frame message (all four signed frames decode as empty
objects) whose signature frame is the empty string is NOT marked
authenticated — `parse` still compares the signature frame against the
digest recomputed with the empty key, and rejects the message. -/
theorem empty_key_counterexample :
    Message.create
        ["i", "<IDS|MSG>", "", JSON.stringify (.obj []),
         JSON.stringify (.obj []), JSON.stringify (.obj []),
         JSON.stringify (.obj [])] "sha256" "" =
      .ok { Message.init "sha256" "" with
              signature := some "", signatureOK := some false } := rfl

/-- C2 (amended): with the empty secret key the codec performs the same
exact comparison as with any other key — whenever `parse` returns a
message, its `authenticated` flag equals the comparison of the received
signature frame with the digest recomputed using the empty key; there is no
always-authenticated unsigned mode. -/
theorem empty_key_exact_comparison (scheme a0 a1 a2 a3 a4 a5 a6 : String)
    (rest : List String) (m : Message)
    (hm : Message.create (a0 :: a1 :: a2 :: a3 :: a4 :: a5 :: a6 :: rest)
        scheme "" = .ok m) :
    m.signatureOK = some (a2 == crypto.hmacHex
      (Message.init scheme "").scheme "" [a3, a4, a5, a6]) := by
  unfold Message.create at hm
  by_cases hsig : (a2 == crypto.hmacHex
      (Message.init scheme "").scheme "" [a3, a4, a5, a6]) = true
  · rw [hsig]
    cases hh : JSON.parse a3 with
    | none =>
      rw [Message.parse_headerFail (Message.init scheme "")
        a0 a1 a2 a3 a4 a5 a6 rest hsig hh] at hm
      exact absurd hm (by simp)
    | some hj =>
      cases hph : JSON.parse a4 with
      | none =>
        rw [Message.parse_parentFail (Message.init scheme "")
          a0 a1 a2 a3 a4 a5 a6 rest hj hsig hh hph] at hm
        exact absurd hm (by simp)
      | some phj =>
        cases hc : JSON.parse a6 with
        | none =>
          rw [Message.parse_contentFail (Message.init scheme "")
            a0 a1 a2 a3 a4 a5 a6 rest hj phj hsig hh hph hc] at hm
          exact absurd hm (by simp)
        | some cj =>
          rw [Message.parse_sigOK (Message.init scheme "")
            a0 a1 a2 a3 a4 a5 a6 rest hj phj cj hsig hh hph hc] at hm
          injection hm with h
          rw [← h]
  · rw [Bool.not_eq_true] at hsig
    rw [hsig]
    rw [Message.parse_sigFail (Message.init scheme "")
      a0 a1 a2 a3 a4 a5 a6 rest hsig] at hm
    injection hm with h
    rw [← h]

/-- Witness for the amended C2 at the counterexample's input. -/
theorem empty_key_exact_comparison_witness :
    (Message.create
        ["i", "<IDS|MSG>", "", JSON.stringify (.obj []),
         JSON.stringify (.obj []), JSON.stringify (.obj []),
         JSON.stringify (.obj [])] "sha256" "" =
      .ok { Message.init "sha256" "" with
              signature := some "", signatureOK := some false }) ∧
    ({ Message.init "sha256" "" with
        signature := some "", signatureOK := some false } : Message
      ).signatureOK = some ("" == crypto.hmacHex
        (Message.init "sha256" "").scheme ""
        [JSON.stringify (.obj []), JSON.stringify (.obj []),
         JSON.stringify (.obj []), JSON.stringify (.obj [])]) :=
  ⟨rfl, empty_key_exact_comparison "sha256" "i" "<IDS|MSG>" ""
    (JSON.stringify (.obj [])) (JSON.stringify (.obj []))
    (JSON.stringify (.obj [])) (JSON.stringify (.obj [])) [] _ rfl⟩

/-- C3: the authentication tag is recomputed and checked before any frame
is decoded: whenever the comparison fails, `parse` returns normally — it
never raises — no matter what the header, parentHeader, metadata and
content frames contain (malformed structured-data included, since those
frames are never decoded on this path). -/
theorem tag_checked_before_decoding (scheme key : String)
    (a0 a1 a2 a3 a4 a5 a6 : String) (rest : List String)
    (hsig : (a2 == crypto.hmacHex (Message.init scheme key).scheme key
        [a3, a4, a5, a6]) = false) :
    (Message.create (a0 :: a1 :: a2 :: a3 :: a4 :: a5 :: a6 :: rest)
        scheme key).isOk = true := by
  unfold Message.create
  rw [Message.parse_sigFail (Message.init scheme key)
    a0 a1 a2 a3 a4 a5 a6 rest hsig]
  rfl

/-- Witness for C3: a forged message whose signed frames are all malformed
structured-data still parses without raising. -/
theorem tag_checked_before_decoding_witness :
    (("" == crypto.hmacHex (Message.init "sha256" "a-secret").scheme
        "a-secret"
        ["not json (", "%%%", "\x00\x01", "]]malformed"]) = false) ∧
      (Message.create
        ["i", "<IDS|MSG>", "", "not json (", "%%%", "\x00\x01",
         "]]malformed"] "sha256" "a-secret").isOk = true :=
  ⟨by decide, tag_checked_before_decoding "sha256" "a-secret"
    "i" "<IDS|MSG>" "" "not json (" "%%%" "\x00\x01" "]]malformed" []
    (by decide)⟩

theorem hex64_length (n : Nat) : (crypto.hex64 n).length = 64 := rfl

theorem hmacHex_length (scheme key : String) (data : List String) :
    (crypto.hmacHex scheme key data).length = 64 :=
  hex64_length _

theorem beq_false_of_length_ne {s1 s2 : String}
    (h : s1.length ≠ s2.length) : (s1 == s2) = false := by
  by_contra hne
  rw [Bool.not_eq_false] at hne
  exact h (congrArg String.length (eq_of_beq hne))

/-- C7 counterexample: a frame sequence laid out exactly as the spec says —
two leading identity frames, the single delimiter sentinel, then the
signature computed over the four signed frames that follow it — is not
accepted: `parse` never searches for the delimiter, reads the delimiter
slot (index 2) as the signature, recomputes the tag over indices 3-6 (which
here start with the real signature frame), and rejects the message as
unauthenticated, assigning no structural field at all. -/
theorem delimiter_not_located_counterexample :
    (twoIdentFrames[2]? = some "<IDS|MSG>" ∧
      twoIdentFrames[3]? = some (crypto.hmacHex "sha256" "a-secret"
        [JSON.stringify demoHeader, JSON.stringify (.obj []),
         JSON.stringify (.obj []), JSON.stringify demoContent]) ∧
      twoIdentFrames[4]? = some (JSON.stringify demoHeader)) ∧
    Message.create twoIdentFrames "sha256" "a-secret" =
      .ok { Message.init "sha256" "a-secret" with
              signature := some "<IDS|MSG>", signatureOK := some false } := by
  refine ⟨⟨rfl, rfl, rfl⟩, ?_⟩
  show (Message.init "sha256" "a-secret").parse twoIdentFrames = _
  rw [show twoIdentFrames = "ident-a" :: "ident-b" :: "<IDS|MSG>" ::
      crypto.hmacHex "sha256" "a-secret"
        [JSON.stringify demoHeader, JSON.stringify (.obj []),
         JSON.stringify (.obj []), JSON.stringify demoContent] ::
      JSON.stringify demoHeader :: JSON.stringify (.obj []) ::
      JSON.stringify (.obj []) :: [JSON.stringify demoContent] from rfl]
  exact Message.parse_sigFail _ _ _ _ _ _ _ _ _
    (beq_false_of_length_ne (by rw [hmacHex_length]; decide))

/-- C7 (amended): `parse` reads fixed frame positions and never searches
for the delimiter sentinel: frame 0 is the (single) identity frame, frame 1
the delimiter, frame 2 the signature, frames 3-6 the signed
header/parentHeader/metadata/content in that order, and frame 7, when
present, the blob. A spec layout is accepted, with every structural field
assigned from those positions, exactly when it carries one leading identity
frame. -/
theorem parse_reads_fixed_positions (scheme key : String)
    (a0 a1 a2 a3 a4 a5 a6 : String) (rest : List String) (hj phj cj : Json)
    (hsig : (a2 == crypto.hmacHex (Message.init scheme key).scheme key
        [a3, a4, a5, a6]) = true)
    (hh : JSON.parse a3 = some hj) (hph : JSON.parse a4 = some phj)
    (hc : JSON.parse a6 = some cj) :
    Message.create (a0 :: a1 :: a2 :: a3 :: a4 :: a5 :: a6 :: rest)
        scheme key =
      .ok { Message.init scheme key with
              signature := some a2, signatureOK := some true,
              idents := some a0, delimiter := some a1,
              header := some hj, parentHeader := some phj,
              metadata := some a5, content := some cj,
              blob := rest[0]? } :=
  Message.parse_sigOK (Message.init scheme key)
    a0 a1 a2 a3 a4 a5 a6 rest hj phj cj hsig hh hph hc

/-- Witness for the amended C7: the demonstration request (one identity
frame, correct signature) parses with every field assigned from its fixed
position. -/
theorem parse_reads_fixed_positions_witness :
    ((crypto.hmacHex "sha256" "a-secret"
        [JSON.stringify demoHeader, JSON.stringify (.obj []),
         JSON.stringify (.obj []), JSON.stringify demoContent] ==
      crypto.hmacHex (Message.init "sha256" "a-secret").scheme "a-secret"
        [JSON.stringify demoHeader, JSON.stringify (.obj []),
         JSON.stringify (.obj []), JSON.stringify demoContent]) = true) ∧
    (JSON.parse (JSON.stringify demoHeader) = some demoHeader) ∧
    (JSON.parse (JSON.stringify (.obj [])) = some (.obj [])) ∧
    (JSON.parse (JSON.stringify demoContent) = some demoContent) ∧
    Message.create demoRequestFrames "sha256" "a-secret" =
      .ok { Message.init "sha256" "a-secret" with
              signature := some (crypto.hmacHex "sha256" "a-secret"
                [JSON.stringify demoHeader, JSON.stringify (.obj []),
                 JSON.stringify (.obj []), JSON.stringify demoContent]),
              signatureOK := some true,
              idents := some "router-ident", delimiter := some "<IDS|MSG>",
              header := some demoHeader, parentHeader := some (.obj []),
              metadata := some (JSON.stringify (.obj [])),
              content := some demoContent, blob := none } :=
  ⟨beq_self_eq_true _, JSON.parse_stringify demoHeader,
    JSON.parse_stringify (.obj []), JSON.parse_stringify demoContent,
    parse_reads_fixed_positions "sha256" "a-secret"
      "router-ident" "<IDS|MSG>"
      (crypto.hmacHex "sha256" "a-secret"
        [JSON.stringify demoHeader, JSON.stringify (.obj []),
         JSON.stringify (.obj []), JSON.stringify demoContent])
      (JSON.stringify demoHeader) (JSON.stringify (.obj []))
      (JSON.stringify (.obj [])) (JSON.stringify demoContent) []
      demoHeader (.obj []) demoContent
      (beq_self_eq_true _) (JSON.parse_stringify demoHeader)
      (JSON.parse_stringify (.obj [])) (JSON.parse_stringify demoContent)⟩

/-- C10: when the signature check fails, `parse` stops before decoding
anything — the resulting message holds exactly the received signature
string and `authenticated = false`, while idents, delimiter, header,
parentHeader, metadata, content and blob all remain `undefined`. -/
theorem unauthenticated_message_undecoded (scheme key : String)
    (a0 a1 a2 a3 a4 a5 a6 : String) (rest : List String)
    (hsig : (a2 == crypto.hmacHex (Message.init scheme key).scheme key
        [a3, a4, a5, a6]) = false) :
    Message.create (a0 :: a1 :: a2 :: a3 :: a4 :: a5 :: a6 :: rest)
        scheme key =
      .ok { idents := none, delimiter := none, signature := some a2,
            header := none, parentHeader := none, metadata := none,
            content := none, blob := none,
            scheme := (Message.init scheme key).scheme, key := key,
            signatureOK := some false } :=
  Message.parse_sigFail (Message.init scheme key)
    a0 a1 a2 a3 a4 a5 a6 rest hsig

/-- Witness for C10 at a concrete forged message. -/
theorem unauthenticated_message_undecoded_witness :
    (("bogus" == crypto.hmacHex
        (Message.init "sha256" "another-key").scheme "another-key"
        ["h2", "p2", "m2", "c2"]) = false) ∧
    Message.create ["i2", "<IDS|MSG>", "bogus", "h2", "p2", "m2", "c2"]
        "sha256" "another-key" =
      .ok { idents := none, delimiter := none, signature := some "bogus",
            header := none, parentHeader := none, metadata := none,
            content := none, blob := none,
            scheme := (Message.init "sha256" "another-key").scheme,
            key := "another-key", signatureOK := some false } :=
  ⟨by decide, unauthenticated_message_undecoded "sha256" "another-key"
    "i2" "<IDS|MSG>" "bogus" "h2" "p2" "m2" "c2" [] (by decide)⟩

theorem jsToString_str (s : String) : jsToString (.str s) = s := by
  unfold jsToString
  rfl

theorem Kernel.dispatch_ok (config : KernelConfig) (freshId : String)
    (args : List String) (m : Message) (hj : Json)
    (hcreate : Message.create args (config.signature_scheme.drop 5)
      config.key = .ok m)
    (hOK : m.signatureOK = some true)
    (hheader : m.header = some hj) (hnull : hj.isNull = false) :
    Kernel._onMessage config freshId args =
      if Kernel.inPrototypeChain (Kernel.jsPropToKey (hj.get "msg_type"))
      then Kernel.invokeProtoProperty m freshId
        (Kernel.jsPropToKey (hj.get "msg_type"))
      else .warned (Kernel.jsPropToKey (hj.get "msg_type")) := by
  unfold Kernel._onMessage
  simp only [hcreate, hOK, hheader, hnull, bne_self_eq_false,
    Bool.false_eq_true, if_false]

theorem Kernel.beforeRun_ok (request : Message) (freshId : String)
    (session : Session) (cj hj : Json)
    (hc : request.content = some cj) (hcnull : cj.isNull = false)
    (hh : request.header = some hj) (hhnull : hj.isNull = false) :
    Kernel.beforeRun request freshId session =
      .ok [⟨.iopub, respondFrames request hj freshId "pyin"
        (.obj ([("execution_count", .num session.executionCount)]
          ++ optField "code" (cj.get "code")))⟩] := by
  unfold Kernel.beforeRun
  simp only [hc, hcnull, Bool.false_eq_true, if_false]
  rw [Message.respond_ok request freshId .iopub "pyin" _ hj hh hhnull]
  rfl

theorem Kernel.onSuccess_ok (request : Message) (id1 id2 : String)
    (session : Session) (hj : Json)
    (hh : request.header = some hj) (hhnull : hj.isNull = false) :
    Kernel.onSuccess request id1 id2 session =
      .ok [⟨.shell, respondFrames request hj id1 "execute_reply"
              (.obj [("status", .str "ok"),
                     ("execution_count", .num session.executionCount),
                     ("payload", .arr []),
                     ("user_variables", .obj []),
                     ("user_expressions", .obj [])])⟩,
           ⟨.iopub, respondFrames request hj id2 "pyout"
              (.obj ([("execution_count", .num session.executionCount)]
                ++ optField "data" session.result.mime
                ++ [("metadata", .obj [])]))⟩] := by
  unfold Kernel.onSuccess
  rw [Message.respond_ok request id1 .shell "execute_reply" _ hj hh hhnull,
    Message.respond_ok request id2 .iopub "pyout" _ hj hh hhnull]
  rfl

theorem Kernel.onError_ok (request : Message) (id1 id2 : String)
    (session : Session) (er : ErrorInfo) (hj : Json)
    (he : session.result.error = some er)
    (hh : request.header = some hj) (hhnull : hj.isNull = false) :
    Kernel.onError request id1 id2 session =
      .ok [⟨.shell, respondFrames request hj id1 "execute_reply"
              (.obj [("status", .str "error"),
                     ("execution_count", .num session.executionCount),
                     ("ename", er.ename), ("evalue", er.evalue),
                     ("traceback", er.traceback)])⟩,
           ⟨.iopub, respondFrames request hj id2 "pyerr"
              (.obj [("execution_count", .num session.executionCount),
                     ("ename", er.ename), ("evalue", er.evalue),
                     ("traceback", er.traceback)])⟩] := by
  unfold Kernel.onError
  simp only [he]
  rw [Message.respond_ok request id1 .shell "execute_reply" _ hj hh hhnull,
    Message.respond_ok request id2 .iopub "pyerr" _ hj hh hhnull]
  rfl

theorem demoTask_eq : demoTask = some demoExecTask := by
  have hcreate := Message.parse_sigOK
    (Message.init (demoConfig.signature_scheme.drop 5) demoConfig.key)
    "router-ident" "<IDS|MSG>"
    (crypto.hmacHex "sha256" "a-secret"
      [JSON.stringify demoHeader, JSON.stringify (.obj []),
       JSON.stringify (.obj []), JSON.stringify demoContent])
    (JSON.stringify demoHeader) (JSON.stringify (.obj []))
    (JSON.stringify (.obj [])) (JSON.stringify demoContent) []
    demoHeader (.obj []) demoContent
    (beq_self_eq_true _) (JSON.parse_stringify _) (JSON.parse_stringify _)
    (JSON.parse_stringify _)
  have hd := Kernel.dispatch_ok demoConfig "id-0" demoRequestFrames _
    demoHeader hcreate rfl rfl rfl
  rw [show Kernel.jsPropToKey (demoHeader.get "msg_type") =
    jsToString (.str "execute_request") from rfl, jsToString_str] at hd
  unfold demoTask
  rw [hd]
  rfl

/-- C5 (code bug): the heartbeat listener at src/lib/kernel.js lines
124-126 is a plain `function` registered without `.bind(this)` (contrast
the shell listener, bound at line 119), and the event emitter invokes
listeners with `this` set to the emitting socket — so `this.hbSocket` is
`undefined` and every heartbeat arrival, whatever its payload, throws a
`TypeError` instead of echoing. Under the intended binding the listener
would echo any payload verbatim on the heartbeat endpoint. -/
theorem heartbeat_echo_raises (b : String) :
    Kernel.hbOnMessage b =
      .error "TypeError: cannot read send of undefined" ∧
    Kernel.hbListener .kernelInstance b = .ok ⟨.hb, [b]⟩ :=
  ⟨rfl, rfl⟩

/-- C6 (code bug): the dispatcher tests `msg_type in prototype`, and the
`in` operator walks the whole prototype chain — so an authenticated message
whose `msg_type` is an inherited `Object.prototype` member such as
`"toString"` silently invokes that unrelated built-in: no warning is
emitted, no handler runs, no frames are sent. A genuinely absent name such
as `"nonexistent_request"` does take the intended warn-and-ignore path. -/
theorem inherited_type_bypasses_warning :
    Kernel._onMessage demoConfig "id-0" toStringFrames =
      .inheritedInvoked "toString" ∧
    (Kernel._onMessage demoConfig "id-0" toStringFrames).emissions = [] ∧
    (Kernel._onMessage demoConfig "id-0" toStringFrames).invokesHandler =
      false ∧
    Kernel._onMessage demoConfig "id-0" unknownTypeFrames =
      .warned "nonexistent_request" ∧
    (Kernel._onMessage demoConfig "id-0" unknownTypeFrames).emissions =
      [] := by
  have hcreate1 := Message.parse_sigOK
    (Message.init (demoConfig.signature_scheme.drop 5) demoConfig.key)
    "router-ident" "<IDS|MSG>"
    (crypto.hmacHex "sha256" "a-secret"
      [JSON.stringify (.obj [("msg_type", .str "toString")]),
       JSON.stringify (.obj []), JSON.stringify (.obj []),
       JSON.stringify (.obj [])])
    (JSON.stringify (.obj [("msg_type", .str "toString")]))
    (JSON.stringify (.obj [])) (JSON.stringify (.obj []))
    (JSON.stringify (.obj [])) []
    (.obj [("msg_type", .str "toString")]) (.obj []) (.obj [])
    (beq_self_eq_true _) (JSON.parse_stringify _) (JSON.parse_stringify _)
    (JSON.parse_stringify _)
  have hd1 := Kernel.dispatch_ok demoConfig "id-0" toStringFrames _
    (.obj [("msg_type", .str "toString")]) hcreate1 rfl rfl rfl
  rw [show Kernel.jsPropToKey
      ((Json.obj [("msg_type", Json.str "toString")]).get "msg_type") =
    jsToString (.str "toString") from rfl, jsToString_str] at hd1
  have h1 : Kernel._onMessage demoConfig "id-0" toStringFrames =
      .inheritedInvoked "toString" := hd1.trans (by rfl)
  have hcreate2 := Message.parse_sigOK
    (Message.init (demoConfig.signature_scheme.drop 5) demoConfig.key)
    "router-ident" "<IDS|MSG>"
    (crypto.hmacHex "sha256" "a-secret"
      [JSON.stringify (.obj [("msg_type", .str "nonexistent_request")]),
       JSON.stringify (.obj []), JSON.stringify (.obj []),
       JSON.stringify (.obj [])])
    (JSON.stringify (.obj [("msg_type", .str "nonexistent_request")]))
    (JSON.stringify (.obj [])) (JSON.stringify (.obj []))
    (JSON.stringify (.obj [])) []
    (.obj [("msg_type", .str "nonexistent_request")]) (.obj []) (.obj [])
    (beq_self_eq_true _) (JSON.parse_stringify _) (JSON.parse_stringify _)
    (JSON.parse_stringify _)
  have hd2 := Kernel.dispatch_ok demoConfig "id-0" unknownTypeFrames _
    (.obj [("msg_type", .str "nonexistent_request")]) hcreate2 rfl rfl rfl
  rw [show Kernel.jsPropToKey
      ((Json.obj [("msg_type", Json.str "nonexistent_request")]).get
        "msg_type") =
    jsToString (.str "nonexistent_request") from rfl, jsToString_str] at hd2
  have h2 : Kernel._onMessage demoConfig "id-0" unknownTypeFrames =
      .warned "nonexistent_request" := hd2.trans (by rfl)
  exact ⟨h1, by rw [h1]; rfl, by rw [h1]; rfl, h2, by rw [h2]; rfl⟩

/-- C8: the demonstration `execute_request{code:"1+1"}`, driven by a stub
engine that invokes `beforeRun`, `afterRun` and then `onSuccess` with
`executionCount = 1` and mime result `{"text/plain": "2"}`, yields in
order: a `pyin` input-echo broadcast on the broadcast endpoint with the
code and execution count; an ok `execute_reply` on the request/response
endpoint with execution count 1 and empty
payload/user_variables/user_expressions; and a `pyout` output broadcast
with the mime data. -/
theorem execute_success_scenario :
    ∃ e1 e2 e3,
      demoSuccessRun = some (.ok [e1, e2, e3]) ∧
      e1.socket = .iopub ∧ e1.msgType = some (.str "pyin") ∧
      e1.contentJson = some (.obj [("execution_count", .num 1),
        ("code", .str "1+1")]) ∧
      e2.socket = .shell ∧ e2.msgType = some (.str "execute_reply") ∧
      e2.contentJson = some (.obj [("status", .str "ok"),
        ("execution_count", .num 1), ("payload", .arr []),
        ("user_variables", .obj []), ("user_expressions", .obj [])]) ∧
      e3.socket = .iopub ∧ e3.msgType = some (.str "pyout") ∧
      e3.contentJson = some (.obj [("execution_count", .num 1),
        ("data", .obj [("text/plain", .str "2")]),
        ("metadata", .obj [])]) := by
  refine ⟨⟨.iopub, respondFrames demoMessage demoHeader "id-1" "pyin"
      (.obj [("execution_count", .num 1), ("code", .str "1+1")])⟩,
    ⟨.shell, respondFrames demoMessage demoHeader "id-2" "execute_reply"
      (.obj [("status", .str "ok"), ("execution_count", .num 1),
        ("payload", .arr []), ("user_variables", .obj []),
        ("user_expressions", .obj [])])⟩,
    ⟨.iopub, respondFrames demoMessage demoHeader "id-3" "pyout"
      (.obj [("execution_count", .num 1),
        ("data", .obj [("text/plain", .str "2")]),
        ("metadata", .obj [])])⟩,
    ?_, rfl, respondFrames_msgType _ _ _ _ _ _,
    respondFrames_contentJson _ _ _ _ _ _,
    rfl, respondFrames_msgType _ _ _ _ _ _,
    respondFrames_contentJson _ _ _ _ _ _,
    rfl, respondFrames_msgType _ _ _ _ _ _,
    respondFrames_contentJson _ _ _ _ _ _⟩
  unfold demoSuccessRun
  rw [demoTask_eq]
  refine congrArg some ?_
  simp only [sm.runStubSuccess, demoExecTask]
  rw [Kernel.beforeRun_ok demoMessage "id-1" successSession demoContent
    demoHeader rfl rfl rfl rfl]
  rw [Kernel.onSuccess_ok demoMessage "id-2" "id-3" successSession
    demoHeader rfl rfl]
  rfl

/-- C9: whenever the stub engine invokes the submitted task's `onError`
with `session.result.error = {ename, evalue, traceback}`, the kernel emits
an error `execute_reply` on the request/response endpoint carrying the
execution count and the three error fields, followed by a `pyerr` broadcast
on the broadcast endpoint carrying the same three fields. -/
theorem execute_error_scenario (en ev tb : Json) (n : Int) :
    ∃ e1 e2,
      demoErrorRun en ev tb n = some (.ok [e1, e2]) ∧
      e1.socket = .shell ∧ e1.msgType = some (.str "execute_reply") ∧
      e1.contentJson = some (.obj [("status", .str "error"),
        ("execution_count", .num n), ("ename", en), ("evalue", ev),
        ("traceback", tb)]) ∧
      e2.socket = .iopub ∧ e2.msgType = some (.str "pyerr") ∧
      e2.contentJson = some (.obj [("execution_count", .num n),
        ("ename", en), ("evalue", ev), ("traceback", tb)]) := by
  refine ⟨⟨.shell, respondFrames demoMessage demoHeader "id-1"
      "execute_reply"
      (.obj [("status", .str "error"), ("execution_count", .num n),
        ("ename", en), ("evalue", ev), ("traceback", tb)])⟩,
    ⟨.iopub, respondFrames demoMessage demoHeader "id-2" "pyerr"
      (.obj [("execution_count", .num n), ("ename", en), ("evalue", ev),
        ("traceback", tb)])⟩,
    ?_, rfl, respondFrames_msgType _ _ _ _ _ _,
    respondFrames_contentJson _ _ _ _ _ _,
    rfl, respondFrames_msgType _ _ _ _ _ _,
    respondFrames_contentJson _ _ _ _ _ _⟩
  unfold demoErrorRun
  rw [demoTask_eq]
  refine congrArg some ?_
  simp only [sm.runStubError, demoExecTask]
  rw [Kernel.onError_ok demoMessage "id-1" "id-2" (errorSession en ev tb n)
    ⟨en, ev, tb⟩ demoHeader rfl rfl rfl]
  rfl

/-- C4: round-trip signing — for every header/content pair, key, scheme,
identity and delimiter, the frame sequence `respond` produces (signing the
four canonically serialized frames in order), when re-parsed with the same
scheme and key, is authenticated. -/
theorem roundtrip_signing (hj cj : Json)
    (ids delim mtype freshId scheme key : String) (sock : SocketId)
    (hnull : hj.isNull = false) :
    ∃ em,
      Message.respond { Message.init scheme key with
          header := some hj, idents := some ids, delimiter := some delim }
        freshId sock mtype cj = .ok em ∧
      ∃ m, Message.create em.frames scheme key = .ok m ∧
        m.signatureOK = some true := by
  refine ⟨⟨sock, respondFrames { Message.init scheme key with
      header := some hj, idents := some ids, delimiter := some delim }
      hj freshId mtype cj⟩,
    Message.respond_ok _ freshId sock mtype cj hj rfl hnull, ?_⟩
  exact ⟨_,
    Message.parse_sigOK (Message.init scheme key) _ _ _ _ _ _ _ [] _ _ _
      (beq_self_eq_true _) (JSON.parse_stringify _) (JSON.parse_stringify _)
      (JSON.parse_stringify _), rfl⟩

/-- Witness for C4 at a concrete quadruple and key. -/
theorem roundtrip_signing_witness :
    ((Json.obj [("username", .str "u"), ("session", .str "s")]).isNull =
      false) ∧
    (∃ em,
      Message.respond { Message.init "sha256" "k" with
          header := some (.obj [("username", .str "u"),
            ("session", .str "s")]),
          idents := some "i", delimiter := some "<IDS|MSG>" }
        "fresh-1" .shell "kernel_info_reply" (.obj []) = .ok em ∧
      ∃ m, Message.create em.frames "sha256" "k" = .ok m ∧
        m.signatureOK = some true) :=
  ⟨rfl, roundtrip_signing
    (.obj [("username", .str "u"), ("session", .str "s")]) (.obj [])
    "i" "<IDS|MSG>" "kernel_info_reply" "fresh-1" "sha256" "k" .shell rfl⟩
